import Mathlib

/-!
Shallow embedding of the linkdoku authentication / puzzle provisioning core.

The definitions below are translated from the Rust sources:
* `src/common/src/lib.rs`        — shared data model (Visibility, Puzzle, responses)
* `src/backend/src/login.rs`     — OIDC login flow handlers
* `src/backend/src/puzzle.rs`    — puzzle create/retrieve handlers
* `src/backend/src/dbconn/puzzle.rs`    — stored puzzle record and projection
* `src/backend/src/dbconn/normalise.rs` — short-name normalizer
* `src/backend/src/dbconn/identity.rs`  — identities

External effects (the OIDC token exchange, redis round trips, md5, JSON
(de)serialisation of the cookie) are abstracted as explicit parameters; the
control flow of each handler is translated statement by statement.
-/

namespace Linkdoku

/-! ## Data model (`src/common/src/lib.rs`) -/

/-- `enum Visibility { #[default] Restricted, Public, Published }` -/
inductive Visibility where
  | Restricted
  | Public
  | Published
deriving DecidableEq, Repr

/-- The `#[derive(Default)]` of `Visibility` marks `Restricted` as the default. -/
instance : Inhabited Visibility := ⟨.Restricted⟩

/-- `enum Rating` (puzzle difficulty; carried by states, not inspected by the core). -/
inductive Rating where
  | Tutorial
  | Beginner
  | Easy
  | Regular
  | Hard
  | VeryHard
deriving DecidableEq, Repr

/-- `struct UrlEntry { title, url }` -/
structure UrlEntry where
  title : String
  url : String
deriving DecidableEq, Repr

/-- `enum PuzzleData`; the `FPuzzles(Value)` arm carries an opaque JSON value,
modelled as its serialised text. -/
inductive PuzzleData where
  | Nothing
  | URLs (entries : List UrlEntry)
  | Pack (puzzles : List String)
  | FPuzzles (value : String)
deriving DecidableEq, Repr

/-- `struct PuzzleState` -/
structure PuzzleState where
  description : String
  setter_rating : Rating
  data : PuzzleData
  visibility : Visibility
  visibility_changed : Option String
deriving DecidableEq, Repr

/-- `struct Puzzle` from `linkdoku_common` (the API-facing puzzle). -/
structure APIPuzzle where
  uuid : String
  owner : String
  display_name : String
  short_name : String
  visibility : Visibility
  visibility_changed : Option String
  states : List PuzzleState
deriving DecidableEq, Repr

/-- `enum CreatePuzzleResponse` -/
inductive CreatePuzzleResponse where
  | Success (uuid : String)
  | NotLoggedIn
  | FailedUUIDSupplied
  | InvalidOwnerRole
  | InvalidStateVector
  | InvalidVisiblityData
  | DatabaseFailure (message : String)
deriving DecidableEq, Repr

/-- `enum BackendLoginStatus` -/
inductive BackendLoginStatus where
  | LoggedOut
  | LoggedIn (name : String) (gravatar_hash : Option String)
      (roles : List String) (role : String)
deriving DecidableEq, Repr

/-- `enum LoginFlowStart` -/
inductive LoginFlowStart where
  | Idle
  | Redirect (url : String)
  | Error (message : String)
deriving DecidableEq, Repr

/-- `struct LoginFlowResult { error: Option<String> }` -/
structure LoginFlowResult where
  error : Option String
deriving DecidableEq, Repr

/-! ## Identities (`src/backend/src/dbconn/identity.rs`) -/

/-- `struct Identity { uuid, display_name, gravatar_hash }` -/
structure Identity where
  uuid : String
  display_name : String
  gravatar_hash : Option String
deriving DecidableEq, Repr

/-- `Identity::new(subj, display_name, email)`: the uuid is the md5 hex digest of
the subject and the gravatar hash the md5 hex digest of the email.  The md5
hex rendering is abstracted as the function argument `md5_hex`. -/
def Identity.new (md5_hex : String → String) (subj : String)
    (display_name : String) (email : Option String) : Identity :=
  { uuid := md5_hex subj
    display_name := display_name
    gravatar_hash := email.map md5_hex }

/-- `Identity::get_default_role`: md5 hex of `identity:{uuid}:defaultrole`. -/
def Identity.get_default_role (md5_hex : String → String) (i : Identity) : String :=
  md5_hex ("identity:" ++ i.uuid ++ ":defaultrole")

/-! ## Login flow state (`src/backend/src/login.rs`) -/

/-- `struct LoginFlowSetup` — the pending-flow record held in the cookie.  The
PKCE verifier, CSRF token, nonce and authorization URL are carried as their
secret strings. -/
structure LoginFlowSetup where
  provider : String
  pkce_verifier : String
  url : String
  csrf_token : String
  nonce : String
deriving DecidableEq, Repr

/-- `struct LoginFlowUserData` -/
structure LoginFlowUserData where
  identity : Identity
  cached_roles : List String
  active_role : String
deriving DecidableEq, Repr

/-- `struct LoginFlowStatus { flow, user }` (`#[derive(Default)]`: both `None`). -/
structure LoginFlowStatus where
  flow : Option LoginFlowSetup
  user : Option LoginFlowUserData
deriving DecidableEq, Repr

instance : Inhabited LoginFlowStatus := ⟨⟨none, none⟩⟩

/-- Modelled from the spec: `LoginFlowUserData::has_role` is referenced from
`src/backend/src/puzzle.rs` but its definition is not under `src/`.  The spec
says the user record "carries ... the cached list of Role ids the identity
controls" and that a role must be a member of that cached list for the caller
to act as it ("the owner is not among the caller's cached roles"), so
`has_role` tests membership of the role id in `cached_roles`. -/
def LoginFlowUserData.has_role (u : LoginFlowUserData) (role : String) : Bool :=
  u.cached_roles.contains role

/-- Model of `serde_json::from_str::<LoginFlowStatus>`: an abstract parser,
together with the fact that the empty string (produced when the cookie is
absent, via `unwrap_or_default`) is never valid JSON. -/
structure JsonCodec where
  parse : String → Option LoginFlowStatus
  parse_empty : parse "" = none

/-- `login_flow_status`: read the private `login` cookie (absent cookie gives
the empty string via `unwrap_or_default()`), parse it, and fall back to the
default (no flow, no user) when parsing fails (`unwrap_or_default()`). -/
def login_flow_status (codec : JsonCodec) (cookie : Option String) : LoginFlowStatus :=
  (codec.parse (cookie.getD "")).getD ⟨none, none⟩

/-- `handle_login_status`: report `LoggedIn` with the projection of the user
data when present, else `LoggedOut`. -/
def handle_login_status (flow : LoginFlowStatus) : BackendLoginStatus :=
  match flow.user with
  | some data =>
      .LoggedIn data.identity.display_name data.identity.gravatar_hash
        data.cached_roles data.active_role
  | none => .LoggedOut

/-! ## Provider registry and `start_auth` (`src/backend/src/login.rs`) -/

/-- `struct ProviderSetup`; the discovered `CoreProviderMetadata` is opaque to
the flow logic and carried as a token string. -/
structure ProviderSetup where
  client_id : String
  client_secret : String
  provider_metadata : String
  scopes : List String
deriving DecidableEq, Repr

/-- `str::to_lowercase`, modelled character by character (`Char.toLower`
lower-cases the ASCII range; this coincides with Rust's `to_lowercase` on the
ASCII provider names at issue). -/
def lowercase_string (s : String) : String := String.mk (s.data.map Char.toLower)

/-- `load_providers`: iterate over the configured providers; each is a pair of
configured name and discovery outcome (`none` models a failed
`CoreProviderMetadata::discover_async`, which is skipped); successful ones are
inserted into the registry keyed by `name.to_lowercase()`. -/
def load_providers (config : List (String × Option ProviderSetup))
    (init : String → Option ProviderSetup) : String → Option ProviderSetup :=
  config.foldl
    (fun acc entry =>
      match entry.2 with
      | some ps => fun k => if k = lowercase_string entry.1 then some ps else acc k
      | none => acc)
    init

/-- The fresh secrets generated on the non-idempotent path of `start_auth`:
`PkceCodeChallenge::new_random_sha256`, `CsrfToken::new_random`,
`Nonce::new_random`, and the authorization URL built from them. -/
structure FreshAuth where
  pkce_verifier : String
  csrf_token : String
  nonce : String
  url : String
deriving DecidableEq, Repr

/-- Outcome of a `start_auth` call: the JSON response and the cookie write, if
any (`none` means `set_login_flow_status` was never called, so the stored
cookie state is untouched). -/
structure StartOutcome where
  response : LoginFlowStart
  written : Option LoginFlowStatus
deriving DecidableEq, Repr

/-- The tail of `start_auth` reached when no same-provider flow is pending:
look the provider up in the registry (as-is, no normalisation); if present,
generate fresh secrets, store the new flow in the cookie and redirect;
otherwise report the unknown provider without mutating state. -/
def start_auth_fresh (providers : String → Option ProviderSetup) (fresh : FreshAuth)
    (flow : LoginFlowStatus) (provider : String) : StartOutcome :=
  match providers provider with
  | some _ =>
      let newFlow : LoginFlowStatus :=
        { flow with
            flow := some
              { provider := provider
                pkce_verifier := fresh.pkce_verifier
                url := fresh.url
                csrf_token := fresh.csrf_token
                nonce := fresh.nonce } }
      { response := .Redirect fresh.url, written := some newFlow }
  | none =>
      { response := .Error ("Provider: " ++ provider ++ " not known")
        written := none }

/-- `start_auth`: already logged in → `Idle`; pending flow for the same
provider → re-emit the stored redirect without touching the cookie; otherwise
take the fresh path. -/
def start_auth (providers : String → Option ProviderSetup) (fresh : FreshAuth)
    (flow : LoginFlowStatus) (provider : String) : StartOutcome :=
  if flow.user.isSome then { response := .Idle, written := none }
  else
    match flow.flow with
    | some setup =>
        if setup.provider = provider then
          { response := .Redirect setup.url, written := none }
        else start_auth_fresh providers fresh flow provider
    | none => start_auth_fresh providers fresh flow provider

/-! ## `handle_login_continue` (`src/backend/src/login.rs`) -/

/-- `struct LoginContinueQuery { state, code, error }` -/
structure LoginContinueQuery where
  state : Option String
  code : Option String
  error : Option String
deriving DecidableEq, Repr

/-- The claims extracted from a verified id token: subject, optional display
name, optional email. -/
structure OidcClaims where
  subject : String
  name : Option String
  email : Option String
deriving DecidableEq, Repr

/-- Outcome of `client.exchange_code(..).request_async(..)`: transport failure,
or a token response whose `id_token()` may be absent, and whose
`claims(..)` verification may fail. -/
inductive TokenExchange where
  | err
  | ok (id_token : Option (Except Unit OidcClaims))

/-- The external effects `handle_login_continue` depends on: the provider
registry, the code-exchange outcome, the two database calls, and md5. -/
structure ContinueEnv where
  providers : String → Option ProviderSetup
  exchange : TokenExchange
  upsert : Except Unit (List String)
  create_default_role : Except Unit Unit
  md5_hex : String → String

/-- Outcome of a `handle_login_continue` call: the cookie write, if any, and
the JSON response. -/
structure ContinueOutcome where
  written : Option LoginFlowStatus
  response : LoginFlowResult
deriving DecidableEq, Repr

/-- `handle_login_continue`, translated branch by branch.  `none` models a
panic: the source runs `params.code.as_deref().unwrap()` once the state
matched and no `error` was supplied, which aborts the handler when `code` is
absent. -/
def handle_login_continue (env : ContinueEnv) (flow : LoginFlowStatus)
    (params : LoginContinueQuery) : Option ContinueOutcome :=
  if flow.user.isSome then some { written := none, response := { error := none } }
  else
    match flow.flow with
    | none => some { written := none, response := { error := none } }
    | some setup =>
      if params.state ≠ some setup.csrf_token then
        some { written := some { flow with flow := none }
               response := { error := some "bad-state" } }
      else
        match params.error with
        | some error =>
            some { written := some { flow with flow := none }
                   response := { error := some error } }
        | none =>
          match params.code with
          | none => none
          | some _ =>
            match env.providers setup.provider with
            | none =>
                some { written := some { flow with flow := none }
                       response := { error := some "bad-provider" } }
            | some _ =>
              match env.exchange with
              | .err =>
                  some { written := some { flow with flow := none }
                         response := { error := some "code-exchange-failed" } }
              | .ok none =>
                  some { written := some { flow with flow := none }
                         response := { error := some "no-id-token" } }
              | .ok (some (.error _)) =>
                  some { written := some { flow with flow := none }
                         response := { error := some "bad-id-token" } }
              | .ok (some (.ok claims)) =>
                let subject := setup.provider ++ ":" ++ claims.subject
                let identity :=
                  Identity.new env.md5_hex subject
                    ((claims.name.map (fun n => n)).getD subject) claims.email
                let flow1 : LoginFlowStatus := { flow with flow := none }
                match env.upsert with
                | .error _ =>
                    some { written := some flow1
                           response := { error := some "database-error" } }
                | .ok roles =>
                  let default_role := identity.get_default_role env.md5_hex
                  if roles.contains default_role then
                    let userData : LoginFlowUserData :=
                      { identity := identity, cached_roles := roles,
                        active_role := default_role }
                    some { written := some { flow1 with user := some userData },
                           response := { error := none } }
                  else
                    match env.create_default_role with
                    | .error _ =>
                        some { written := some flow1,
                               response := { error := some "databse-error" } }
                    | .ok _ =>
                        let userData : LoginFlowUserData :=
                          { identity := identity,
                            cached_roles := roles ++ [default_role],
                            active_role := default_role }
                        some { written := some { flow1 with user := some userData },
                               response := { error := none } }

/-! ## Stored puzzles (`src/backend/src/dbconn/puzzle.rs`) -/

/-- `struct Puzzle` of the database layer (field `visibility_date` instead of
the API's `visibility_changed`). -/
structure DbPuzzle where
  uuid : String
  owner : String
  short_name : String
  display_name : String
  visibility : Visibility
  visibility_date : Option String
  states : List PuzzleState
deriving DecidableEq, Repr

/-- One `match key.as_str()` step of `Puzzle::from_list`: apply a key/value
pair to the record being built.  Unknown keys and unknown visibility strings
only log a warning and leave the record unchanged.  `decomp` abstracts
`Puzzle::decompress_state` (base64 + xz + JSON decode of the states blob). -/
def DbPuzzle.apply_kv (decomp : String → List PuzzleState) (ret : DbPuzzle)
    (key value : String) : DbPuzzle :=
  match key with
  | "owner" => { ret with owner := value }
  | "short_name" => { ret with short_name := value }
  | "display_name" => { ret with display_name := value }
  | "visibility" =>
      match value with
      | "restricted" => { ret with visibility := .Restricted }
      | "public" => { ret with visibility := .Public }
      | "published" => { ret with visibility := .Published }
      | _ => ret
  | "visibility_date" =>
      if value = "" then { ret with visibility_date := none }
      else { ret with visibility_date := some value }
  | "states" => { ret with states := decomp value }
  | _ => ret

/-- Chunk the flat redis key/value list into pairs, as the
`while let Some(key) = kvs.next() { if let Some(value) = kvs.next() { .. } }`
loop consumes it; a trailing unpaired key is ignored. -/
def kvPairs : List String → List (String × String)
  | key :: value :: rest => (key, value) :: kvPairs rest
  | _ => []

/-- `Puzzle::from_list(uuid, kvs)`: start from the all-defaults record
(visibility `Restricted`) and fold the key/value pairs over it in order. -/
def DbPuzzle.from_list (decomp : String → List PuzzleState) (uuid : String)
    (kvs : List String) : DbPuzzle :=
  (kvPairs kvs).foldl
    (fun ret p => DbPuzzle.apply_kv decomp ret p.1 p.2)
    { uuid := uuid, owner := "", short_name := "", display_name := "",
      visibility := .Restricted, visibility_date := none, states := [] }

/-- `Puzzle::as_api_puzzle(is_owner)`: the projection copies the scalar
fields and keeps, in order, exactly the states a non-owner may see — a
`Restricted` state is pushed only when `is_owner`, `Public`/`Published`
states always. -/
def DbPuzzle.as_api_puzzle (p : DbPuzzle) (is_owner : Bool) : APIPuzzle :=
  { uuid := p.uuid
    owner := p.owner
    short_name := p.short_name
    display_name := p.display_name
    visibility := p.visibility
    visibility_changed := p.visibility_date
    states := p.states.filter (fun st =>
      match st.visibility with
      | .Restricted => is_owner
      | .Public => true
      | .Published => true) }

/-! ## Puzzle handlers (`src/backend/src/puzzle.rs`) -/

/-- `retrieve_puzzle`: `fetch` abstracts the
`dbconn.puzzle_by_uuid_or_short_name` round trip, `flowUser` the `user` part
of the decoded cookie.  A fetch failure gives null; a `Restricted` puzzle is
given only to a caller acting as the owning role; the projection filters
states by ownership. -/
def retrieve_puzzle (fetch : Except Unit DbPuzzle)
    (flowUser : Option LoginFlowUserData) : Option APIPuzzle :=
  match fetch with
  | .error _ => none
  | .ok puzzle_data =>
    let is_logged_in_owner :=
      match flowUser with
      | some x => x.has_role puzzle_data.owner
      | none => false
    let can_see_puzzle :=
      match puzzle_data.visibility with
      | .Restricted => is_logged_in_owner
      | .Public => true
      | .Published => true
    if can_see_puzzle then some (puzzle_data.as_api_puzzle is_logged_in_owner)
    else none

/-- `create_puzzle`: the validation cascade, then the store call.  `db`
abstracts `dbconn.create_puzzle` (returning the new uuid or an error
message).  The second component records whether the store was touched at
all.  The source indexes `puzzle.states[0]` after checking
`puzzle.states.len() != 1`; the single-element match below is the same
test. -/
def create_puzzle (flowUser : Option LoginFlowUserData) (puzzle : APIPuzzle)
    (db : Except String String) : CreatePuzzleResponse × Bool :=
  match flowUser with
  | none => (.NotLoggedIn, false)
  | some user =>
    if puzzle.uuid ≠ "" then (.FailedUUIDSupplied, false)
    else if ¬ user.has_role puzzle.owner then (.InvalidOwnerRole, false)
    else
      match puzzle.states with
      | [st] =>
        if puzzle.visibility ≠ .Restricted
            ∨ puzzle.visibility_changed.isSome
            ∨ st.visibility ≠ .Restricted
            ∨ st.visibility_changed.isSome then
          (.InvalidVisiblityData, false)
        else
          match db with
          | .ok uuid => (.Success uuid, true)
          | .error e => (.DatabaseFailure e, true)
      | _ => (.InvalidStateVector, false)

/-! ## Short-name normaliser (`src/backend/src/dbconn/normalise.rs`)

Strings are handled as their character lists; the redis
`HEXISTS {group}:byname` uniqueness probe is abstracted as the `taken`
oracle, and the unbounded `loop` is given explicit fuel (`none` = the loop
has not returned within `fuel` iterations). -/

/-- `RESERVED_SHORT_NAMES` -/
def RESERVED_SHORT_NAMES : List (List Char) :=
  ["api", "-", "linkdoku", "r", "p", "role", "puzzle", "create", "delete",
   "rename"].map String.toList

/-- The retained character set `"abcdefghijklmnopqrstuvwxyz0123456789-_."`. -/
def ALLOWED_CHARS : List Char :=
  "abcdefghijklmnopqrstuvwxyz0123456789-_.".toList

/-- Steps 1–4 of the normaliser: ASCII-only lower-casing
(`to_ascii_lowercase`, which is exactly `Char.toLower`), replacing spaces
with `_`, retaining only the allowed characters, and appending `_` when the
result is a reserved word. -/
def normalise_short_name (s : List Char) : List Char :=
  let s1 := s.map Char.toLower
  let s2 := s1.map (fun c => if c = ' ' then '_' else c)
  let s3 := s2.filter (fun c => c ∈ ALLOWED_CHARS)
  if s3 ∈ RESERVED_SHORT_NAMES then s3 ++ ['_'] else s3

/-- Decimal digit character. -/
def digitChar (d : Nat) : Char := Char.ofNat (48 + d)

/-- Decimal rendering of a natural number (as `format!("{}")` does),
structurally recursive on a fuel argument so that it evaluates by `decide`. -/
def natDigitsAux : Nat → Nat → List Char
  | 0, _ => []
  | fuel + 1, n =>
      if n < 10 then [digitChar n]
      else natDigitsAux fuel (n / 10) ++ [digitChar (n % 10)]

/-- Decimal rendering of `n`; `n + 1` fuel always suffices. -/
def natDigits (n : Nat) : List Char := natDigitsAux (n + 1) n

/-- The candidate sequence tried by the uniqueness loop: first the base name
itself, then `{base}_{i}` for `i = 0, 1, ...`. -/
def nth_candidate (base : List Char) : Nat → List Char
  | 0 => base
  | i + 1 => base ++ '_' :: natDigits i

/-- The `loop` of `unique_short_name`: at iteration `counter`, probe the
current candidate; if free, return it, else move to `{base}_{counter}` and
increment.  `fuel` bounds the number of iterations modelled. -/
def find_unique (taken : List Char → Bool) (base : List Char) :
    Nat → Nat → Option (List Char)
  | _, 0 => none
  | counter, fuel + 1 =>
      let full := nth_candidate base counter
      if taken full then find_unique taken base (counter + 1) fuel
      else some full

/-- `unique_short_name(db, short_name, group)`: normalise, then search for
the first free candidate.  The `group` argument only selects the redis key
probed, which the `taken` oracle abstracts. -/
def unique_short_name (taken : List Char → Bool) (short_name : List Char)
    (fuel : Nat) : Option (List Char) :=
  find_unique taken (normalise_short_name short_name) 0 fuel

/-! ## Theorems -/

/-- C9: whenever the cookie is absent (it then reads as the empty string,
which is not valid JSON) or its value fails to parse as a `LoginFlowStatus`,
`login_flow_status` yields the default state with no flow and no user, and
`handle_login_status` consequently reports `LoggedOut` — an undecodable
cookie never yields a logged-in state. -/
theorem undecodable_cookie_is_logged_out (codec : JsonCodec) (cookie : Option String)
    (h : ∀ v, cookie = some v → codec.parse v = none) :
    login_flow_status codec cookie = ⟨none, none⟩
      ∧ handle_login_status (login_flow_status codec cookie) = .LoggedOut := by
  have hparse : codec.parse (cookie.getD "") = none := by
    cases cookie with
    | none => simpa using codec.parse_empty
    | some v => exact h v rfl
  refine ⟨?_, ?_⟩
  · simp [login_flow_status, hparse]
  · simp [login_flow_status, hparse, handle_login_status]

/-- Witness for C9 at a parser that accepts nothing and an absent cookie. -/
theorem undecodable_cookie_is_logged_out_witness :
    login_flow_status ⟨fun _ => none, rfl⟩ none = ⟨none, none⟩
      ∧ handle_login_status (login_flow_status ⟨fun _ => none, rfl⟩ none) = .LoggedOut :=
  undecodable_cookie_is_logged_out ⟨fun _ => none, rfl⟩ none (fun _ hv => nomatch hv)

/-- C8: when the cookie holds a pending flow for provider `p` and no user,
`start_auth p` re-emits the stored authorization URL as a `Redirect`, writes
nothing back (the stored PKCE verifier, CSRF token, nonce and URL are
untouched), and the result does not depend on the fresh-secret supply — so a
second `start p` call on the same session state returns the identical
redirect and generates no second set of secrets. -/
theorem start_auth_pending_is_idempotent (providers : String → Option ProviderSetup)
    (fresh fresh' : FreshAuth) (flow : LoginFlowStatus) (setup : LoginFlowSetup)
    (p : String) (huser : flow.user = none) (hflow : flow.flow = some setup)
    (hprov : setup.provider = p) :
    start_auth providers fresh flow p
        = { response := .Redirect setup.url, written := none }
      ∧ start_auth providers fresh' flow p = start_auth providers fresh flow p := by
  obtain ⟨f, u⟩ := flow
  simp only at huser hflow
  subst huser
  subst hflow
  subst hprov
  refine ⟨?_, ?_⟩ <;> simp [start_auth]

/-- Witness for C8 at a concrete pending flow. -/
theorem start_auth_pending_is_idempotent_witness :
    start_auth (fun _ => none) ⟨"pk2", "cs2", "no2", "u2"⟩
        ⟨some ⟨"google", "pk", "https://auth.example/a", "tok", "non"⟩, none⟩ "google"
      = { response := .Redirect "https://auth.example/a", written := none } :=
  (start_auth_pending_is_idempotent (fun _ => none) ⟨"pk2", "cs2", "no2", "u2"⟩
    ⟨"x", "y", "z", "w"⟩ ⟨some ⟨"google", "pk", "https://auth.example/a", "tok", "non"⟩, none⟩
    ⟨"google", "pk", "https://auth.example/a", "tok", "non"⟩ "google" rfl rfl rfl).1

/-- C3 (code evaluation at the failing input): with a pending flow whose CSRF
token is `"tok"`, a request carrying the matching `state` but neither `error`
nor `code` drives `handle_login_continue` into
`params.code.as_deref().unwrap()` on `None` — the model aborts (`none`,
the panic case) instead of producing a `LoginFlowResult`. -/
theorem continue_aborts_without_code :
    handle_login_continue
      ⟨fun _ => none, .err, .error (), .error (), fun s => s⟩
      ⟨some ⟨"google", "pk", "https://auth.example/a", "tok", "non"⟩, none⟩
      ⟨some "tok", none, none⟩ = none := rfl

/-- C1: with a flow pending and the request's `state` (including an absent
one) different from the stored CSRF token, `handle_login_continue` returns
the error `"bad-state"` and writes back the cleared flow — uniformly in the
`error` and `code` parameters and in every external outcome (provider
lookup, code exchange, database), so a mismatched state together with an
`error` value still yields `"bad-state"`, never the supplied error, and no
code exchange is consulted. -/
theorem continue_bad_state_checked_first (env : ContinueEnv) (flow : LoginFlowStatus)
    (setup : LoginFlowSetup) (params : LoginContinueQuery)
    (huser : flow.user = none) (hflow : flow.flow = some setup)
    (hstate : params.state ≠ some setup.csrf_token) :
    handle_login_continue env flow params
      = some { written := some ⟨none, none⟩,
               response := { error := some "bad-state" } } := by
  obtain ⟨f, u⟩ := flow
  simp only at huser hflow
  subst huser
  subst hflow
  simp [handle_login_continue, hstate]

/-- Witness for C1: a mismatched state with an `error` parameter present and
an environment whose exchange would succeed still produces `"bad-state"`. -/
theorem continue_bad_state_checked_first_witness :
    handle_login_continue
      ⟨fun _ => some ⟨"cid", "sec", "md", []⟩,
        .ok (some (.ok ⟨"subj", none, none⟩)), .ok [], .ok (), fun s => s⟩
      ⟨some ⟨"google", "pk", "https://auth.example/a", "tok", "non"⟩, none⟩
      ⟨some "forged", some "access_denied", some "code"⟩
      = some { written := some ⟨none, none⟩,
               response := { error := some "bad-state" } } :=
  continue_bad_state_checked_first
    ⟨fun _ => some ⟨"cid", "sec", "md", []⟩,
      .ok (some (.ok ⟨"subj", none, none⟩)), .ok [], .ok (), fun s => s⟩
    ⟨some ⟨"google", "pk", "https://auth.example/a", "tok", "non"⟩, none⟩
    ⟨"google", "pk", "https://auth.example/a", "tok", "non"⟩
    ⟨some "forged", some "access_denied", some "code"⟩ rfl rfl (by decide)

/-- C6 counterexample: with the registry loaded from the single configured
provider name `"Google"` (inserted lower-cased, as `load_providers` does),
`start_auth` applied to the path parameter `"Google"` and to its lower-cased
form do not return the same result — the claim that `start p` resolves `p`
by its lower-case form fails: the lookup uses `p` as-is. -/
theorem start_auth_case_mismatch_cex :
    start_auth (load_providers [("Google", some ⟨"cid", "sec", "md", []⟩)] (fun _ => none))
        ⟨"pk", "cs", "no", "https://auth.example/"⟩ ⟨none, none⟩ "Google"
      ≠ start_auth (load_providers [("Google", some ⟨"cid", "sec", "md", []⟩)] (fun _ => none))
        ⟨"pk", "cs", "no", "https://auth.example/"⟩ ⟨none, none⟩
        (lowercase_string "Google") := by decide

/-- C6 (amended): the registry is *written* with lower-cased names —
`load_providers` inserts a successfully discovered provider under the
lower-cased configuration name — but `start_auth` looks the path parameter
up as-is, with no normalisation: on a logged-out, flow-free session the call
redirects exactly when the registry contains the parameter itself.  Hence
the exact lower-case request `"google"` finds a provider registered from
configuration name `"Google"`, while the request `"Google"` is reported
unknown. -/
theorem start_auth_lookup_case_sensitive (ps : ProviderSetup)
    (init providers : String → Option ProviderSetup) (name k p : String)
    (fresh : FreshAuth) :
    (load_providers [(name, some ps)] init k
        = if k = lowercase_string name then some ps else init k)
      ∧ ((∃ u, (start_auth providers fresh ⟨none, none⟩ p).response = .Redirect u)
          ↔ (providers p).isSome)
      ∧ ((start_auth (load_providers [("Google", some ps)] (fun _ => none))
            fresh ⟨none, none⟩ "google").response = .Redirect fresh.url)
      ∧ ((start_auth (load_providers [("Google", some ps)] (fun _ => none))
            fresh ⟨none, none⟩ "Google").response
          = .Error "Provider: Google not known") := by
  refine ⟨?_, ?_, ?_, ?_⟩
  · simp [load_providers]
  · cases h : providers p with
    | some ps' => simp [start_auth, start_auth_fresh, h]
    | none => simp [start_auth, start_auth_fresh, h]
  · rfl
  · rfl

/-- C2: every exit of `handle_login_continue` that reports an error — which
comprises exactly the named flow-validation reasons (`bad-state`, the
provider-supplied error, `code-exchange-failed`, `no-id-token`,
`bad-id-token`, `bad-provider`) and the database errors — writes back a
cookie state with `flow = none` and `user = none`: a failed login never
leaves a pending flow (or a user) in the cookie. -/
theorem continue_failure_clears_flow (env : ContinueEnv) (flow : LoginFlowStatus)
    (params : LoginContinueQuery) (out : ContinueOutcome) (e : String)
    (hout : handle_login_continue env flow params = some out)
    (herr : out.response.error = some e) :
    out.written = some ⟨none, none⟩ := by
  obtain ⟨f, u⟩ := flow
  cases u with
  | some ud =>
      simp [handle_login_continue] at hout
      subst hout; simp at herr
  | none =>
    cases f with
    | none =>
        simp [handle_login_continue] at hout
        subst hout; simp at herr
    | some setup =>
      by_cases hs : params.state = some setup.csrf_token
      case neg =>
        simp [handle_login_continue, hs] at hout
        subst hout; rfl
      case pos =>
        cases he : params.error with
        | some err =>
            simp [handle_login_continue, hs, he] at hout
            subst hout; rfl
        | none =>
          cases hc : params.code with
          | none => simp [handle_login_continue, hs, he, hc] at hout
          | some c =>
            cases hp : env.providers setup.provider with
            | none =>
                simp [handle_login_continue, hs, he, hc, hp] at hout
                subst hout; rfl
            | some pd =>
              cases hx : env.exchange with
              | err =>
                  simp [handle_login_continue, hs, he, hc, hp, hx] at hout
                  subst hout; rfl
              | ok idt =>
                cases idt with
                | none =>
                    simp [handle_login_continue, hs, he, hc, hp, hx] at hout
                    subst hout; rfl
                | some claimsR =>
                  cases claimsR with
                  | error ve =>
                      simp [handle_login_continue, hs, he, hc, hp, hx] at hout
                      subst hout; rfl
                  | ok claims =>
                    cases hup : env.upsert with
                    | error ue =>
                        simp [handle_login_continue, hs, he, hc, hp, hx, hup] at hout
                        subst hout; rfl
                    | ok roles =>
                      cases hcr : env.create_default_role with
                      | error ue =>
                          simp [handle_login_continue, hs, he, hc, hp, hx, hup, hcr]
                            at hout
                          split at hout
                          · injection hout with hinj
                            subst hinj
                            simp at herr
                          · injection hout with hinj
                            subst hinj
                            rfl
                      | ok uo =>
                          simp [handle_login_continue, hs, he, hc, hp, hx, hup, hcr]
                            at hout
                          split at hout
                          · injection hout with hinj
                            subst hinj
                            simp at herr
                          · injection hout with hinj
                            subst hinj
                            simp at herr

/-- Witness for C2 at the concrete `bad-state` exit. -/
theorem continue_failure_clears_flow_witness :
    (ContinueOutcome.mk (some ⟨none, none⟩) { error := some "bad-state" }).written
      = some ⟨none, none⟩ :=
  continue_failure_clears_flow
    ⟨fun _ => none, .err, .error (), .error (), fun s => s⟩
    ⟨some ⟨"google", "pk", "https://auth.example/a", "tok", "non"⟩, none⟩
    ⟨some "forged", none, none⟩
    (ContinueOutcome.mk (some ⟨none, none⟩) { error := some "bad-state" })
    "bad-state" (by decide) rfl

/-- Whether the caller of `retrieve_puzzle` currently acts as the given role:
the `is_logged_in_owner` computation of `src/backend/src/puzzle.rs`. -/
def acting_as (flowUser : Option LoginFlowUserData) (role : String) : Bool :=
  match flowUser with
  | some x => x.has_role role
  | none => false

/-- C4: for every stored puzzle and caller, (a) `retrieve_puzzle` returns
null when the puzzle's visibility is `Restricted` and the caller does not
act as the owning role; (b) the non-owner projection
(`as_api_puzzle false`) contains no state whose visibility is `Restricted`;
(c) the owner projection (`as_api_puzzle true`) contains every state in the
original order. -/
theorem retrieve_puzzle_restricted_filtering (pd : DbPuzzle)
    (u : Option LoginFlowUserData) :
    (pd.visibility = .Restricted → acting_as u pd.owner = false →
        retrieve_puzzle (.ok pd) u = none)
      ∧ (∀ st ∈ (pd.as_api_puzzle false).states, st.visibility ≠ .Restricted)
      ∧ (pd.as_api_puzzle true).states = pd.states := by
  refine ⟨?_, ?_, ?_⟩
  · intro hvis hown
    cases u with
    | none => simp [retrieve_puzzle, hvis]
    | some x =>
        simp [acting_as] at hown
        simp [retrieve_puzzle, hvis, hown]
  · intro st hst
    simp only [DbPuzzle.as_api_puzzle, List.mem_filter] at hst
    intro hvis
    rw [hvis] at hst
    simp at hst
  · apply List.filter_eq_self.mpr
    intro st _
    cases h : st.visibility <;> simp [h]

/-- Witness for C4 at a concrete restricted puzzle and an anonymous caller. -/
theorem retrieve_puzzle_restricted_filtering_witness :
    retrieve_puzzle (.ok ⟨"u1", "r1", "sn", "dn", .Restricted, none, []⟩) none = none :=
  (retrieve_puzzle_restricted_filtering
    ⟨"u1", "r1", "sn", "dn", .Restricted, none, []⟩ none).1 rfl rfl

/-- C7: `create_puzzle` performs its validation cascade before any store
operation; each validation failure returns its discriminated reason with the
store untouched (`NotLoggedIn` with no user in the cookie,
`FailedUUIDSupplied` for a non-empty uuid, `InvalidOwnerRole` when the owner
is not among the caller's cached roles, `InvalidStateVector` when the number
of initial states is not exactly 1, `InvalidVisiblityData` for any
non-Restricted or changed visibility), and the store is touched only when
every validation has passed. -/
theorem create_puzzle_validates_before_store (u : LoginFlowUserData)
    (puzzle : APIPuzzle) (db : Except String String) :
    (create_puzzle none puzzle db = (.NotLoggedIn, false))
      ∧ (puzzle.uuid ≠ "" →
          create_puzzle (some u) puzzle db = (.FailedUUIDSupplied, false))
      ∧ (puzzle.uuid = "" → u.has_role puzzle.owner = false →
          create_puzzle (some u) puzzle db = (.InvalidOwnerRole, false))
      ∧ (puzzle.uuid = "" → u.has_role puzzle.owner = true →
          puzzle.states.length ≠ 1 →
          create_puzzle (some u) puzzle db = (.InvalidStateVector, false))
      ∧ (∀ st : PuzzleState, puzzle.uuid = "" → u.has_role puzzle.owner = true →
          puzzle.states = [st] →
          (puzzle.visibility ≠ .Restricted ∨ puzzle.visibility_changed.isSome
            ∨ st.visibility ≠ .Restricted ∨ st.visibility_changed.isSome) →
          create_puzzle (some u) puzzle db = (.InvalidVisiblityData, false))
      ∧ (∀ flowUser, (create_puzzle flowUser puzzle db).2 = true →
          ∃ u', flowUser = some u' ∧ puzzle.uuid = ""
            ∧ u'.has_role puzzle.owner = true
            ∧ ∃ st : PuzzleState, puzzle.states = [st]
                ∧ puzzle.visibility = .Restricted
                ∧ puzzle.visibility_changed = none
                ∧ st.visibility = .Restricted
                ∧ st.visibility_changed = none) := by
  refine ⟨rfl, ?_, ?_, ?_, ?_, ?_⟩
  · intro huuid
    simp [create_puzzle, huuid]
  · intro huuid hrole
    simp [create_puzzle, huuid, hrole]
  · intro huuid hrole hlen
    cases hst : puzzle.states with
    | nil => simp [create_puzzle, huuid, hrole, hst]
    | cons st rest =>
      cases rest with
      | nil => rw [hst] at hlen; simp at hlen
      | cons st2 rest2 => simp [create_puzzle, huuid, hrole, hst]
  · intro st huuid hrole hst hbad
    rcases hbad with h | h | h | h <;>
      simp [create_puzzle, huuid, hrole, hst, h]
  · intro flowUser htouched
    cases flowUser with
    | none => simp [create_puzzle] at htouched
    | some u' =>
      refine ⟨u', rfl, ?_⟩
      by_cases huuid : puzzle.uuid = ""
      case neg => simp [create_puzzle, huuid] at htouched
      case pos =>
        refine ⟨huuid, ?_⟩
        cases hrole : u'.has_role puzzle.owner with
        | false => simp [create_puzzle, huuid, hrole] at htouched
        | true =>
          refine ⟨rfl, ?_⟩
          cases hst : puzzle.states with
          | nil => simp [create_puzzle, huuid, hrole, hst] at htouched
          | cons st rest =>
            cases rest with
            | cons st2 rest2 => simp [create_puzzle, huuid, hrole, hst] at htouched
            | nil =>
              refine ⟨st, rfl, ?_⟩
              by_cases hbad : puzzle.visibility ≠ Visibility.Restricted
                  ∨ puzzle.visibility_changed.isSome
                  ∨ st.visibility ≠ Visibility.Restricted
                  ∨ st.visibility_changed.isSome
              case pos =>
                have hval : create_puzzle (some u') puzzle db
                    = (.InvalidVisiblityData, false) := by
                  rcases hbad with h | h | h | h <;>
                    simp [create_puzzle, huuid, hrole, hst, h]
                rw [hval] at htouched
                simp at htouched
              case neg =>
                push_neg at hbad
                obtain ⟨h1, h2, h3, h4⟩ := hbad
                exact ⟨h1, by simpa using h2, h3, by simpa using h4⟩

/-- Witness for C7: a submitted uuid is rejected with the store untouched. -/
theorem create_puzzle_validates_before_store_witness :
    create_puzzle (some ⟨⟨"iu", "nm", none⟩, ["r1"], "r1"⟩)
        ⟨"leaked-uuid", "r1", "dn", "sn", .Restricted, none, []⟩ (.ok "id")
      = (.FailedUUIDSupplied, false) :=
  (create_puzzle_validates_before_store ⟨⟨"iu", "nm", none⟩, ["r1"], "r1"⟩
    ⟨"leaked-uuid", "r1", "dn", "sn", .Restricted, none, []⟩ (.ok "id")).2.1 (by decide)

/-- One key/value application never raises the visibility of a record whose
visibility is `Restricted`, unless the pair is literally
`("visibility", "public")` or `("visibility", "published")`. -/
theorem apply_kv_keeps_restricted (decomp : String → List PuzzleState)
    (ret : DbPuzzle) (k v : String) (h : ret.visibility = .Restricted)
    (hv : k = "visibility" → v ≠ "public" ∧ v ≠ "published") :
    (DbPuzzle.apply_kv decomp ret k v).visibility = .Restricted := by
  unfold DbPuzzle.apply_kv
  split
  · simpa using h
  · simpa using h
  · simpa using h
  · rename_i hk
    have hnv := hv rfl
    split
    · rfl
    · exact absurd rfl hnv.1
    · exact absurd rfl hnv.2
    · simpa using h
  · split <;> simpa using h
  · simpa using h
  · simpa using h

/-- Folding key/value pairs none of which is an explicit
`("visibility", "public"/"published")` over a `Restricted` record leaves the
visibility `Restricted`. -/
theorem foldl_kv_keeps_restricted (decomp : String → List PuzzleState)
    (ps : List (String × String)) : ∀ ret : DbPuzzle,
    ret.visibility = .Restricted →
    (∀ v, ("visibility", v) ∈ ps → v ≠ "public" ∧ v ≠ "published") →
    (ps.foldl (fun r p => DbPuzzle.apply_kv decomp r p.1 p.2) ret).visibility
      = .Restricted := by
  induction ps with
  | nil => intro ret h _; simpa using h
  | cons p rest ih =>
      intro ret h hall
      simp only [List.foldl_cons]
      apply ih
      · apply apply_kv_keeps_restricted decomp ret p.1 p.2 h
        intro hk
        apply hall
        have hp : ("visibility", p.2) = p := by rw [← hk]
        rw [hp]
        exact List.mem_cons_self _ _
      · intro v hvmem
        exact hall v (List.mem_cons_of_mem _ hvmem)

/-- C10: decoding a stored puzzle record is fail-closed with respect to
visibility — whenever no processed `visibility` pair carries the exact
string `"public"` or `"published"` (in particular when the field is absent
or holds an unrecognized string), `Puzzle::from_list` yields visibility
`Restricted` (so never `Public` or `Published`), and the `Visibility` type's
default value is `Restricted`. -/
theorem from_list_visibility_fail_closed (decomp : String → List PuzzleState)
    (uuid : String) (kvs : List String) :
    ((∀ v, ("visibility", v) ∈ kvPairs kvs → v ≠ "public" ∧ v ≠ "published") →
        (DbPuzzle.from_list decomp uuid kvs).visibility = .Restricted)
      ∧ (default : Visibility) = .Restricted := by
  refine ⟨?_, rfl⟩
  intro hall
  exact foldl_kv_keeps_restricted decomp (kvPairs kvs) _ rfl hall

/-- Witness for C10 at a record whose `visibility` field holds an
unrecognized string (with a trailing unpaired key, which is dropped). -/
theorem from_list_visibility_fail_closed_witness :
    (DbPuzzle.from_list (fun _ => []) "u1"
        ["visibility", "junk", "owner"]).visibility = .Restricted :=
  (from_list_visibility_fail_closed (fun _ => []) "u1"
    ["visibility", "junk", "owner"]).1
    (by intro v hv; simp [kvPairs] at hv; subst hv; decide)

/-- Decimal digit characters are in the retained character class. -/
theorem digitChar_allowed (d : Nat) (hd : d < 10) : digitChar d ∈ ALLOWED_CHARS := by
  interval_cases d <;> decide

/-- Every character of a decimal rendering is in the retained class. -/
theorem natDigitsAux_allowed (fuel : Nat) : ∀ (n : Nat), ∀ c ∈ natDigitsAux fuel n,
    c ∈ ALLOWED_CHARS := by
  induction fuel with
  | zero => intro n c hc; simp [natDigitsAux] at hc
  | succ fuel ih =>
      intro n c hc
      simp only [natDigitsAux] at hc
      by_cases h : n < 10
      · rw [if_pos h] at hc
        simp at hc
        subst hc
        exact digitChar_allowed n h
      · rw [if_neg h] at hc
        rcases List.mem_append.mp hc with h1 | h1
        · exact ih _ c h1
        · simp at h1
          subst h1
          exact digitChar_allowed _ (Nat.mod_lt _ (by omega))

/-- Every character of the normalised base name is in the retained class. -/
theorem normalise_allowed (s : List Char) : ∀ c ∈ normalise_short_name s,
    c ∈ ALLOWED_CHARS := by
  intro c hc
  simp only [normalise_short_name] at hc
  split at hc
  · rcases List.mem_append.mp hc with h1 | h1
    · exact of_decide_eq_true (List.mem_filter.mp h1).2
    · simp at h1; subst h1; decide
  · exact of_decide_eq_true (List.mem_filter.mp hc).2

/-- Every character of every candidate in the search sequence is in the
retained class, given that the base is. -/
theorem nth_candidate_allowed (base : List Char)
    (hbase : ∀ c ∈ base, c ∈ ALLOWED_CHARS) (i : Nat) :
    ∀ c ∈ nth_candidate base i, c ∈ ALLOWED_CHARS := by
  intro c hc
  cases i with
  | zero => exact hbase c hc
  | succ j =>
      simp only [nth_candidate] at hc
      rcases List.mem_append.mp hc with h1 | h1
      · exact hbase c h1
      · rcases List.mem_cons.mp h1 with h2 | h2
        · subst h2; decide
        · simp only [natDigits] at h2
          exact natDigitsAux_allowed _ _ c h2

/-- Anything the search loop returns is a candidate of the sequence, and the
oracle is false on it. -/
theorem find_unique_some (taken : List Char → Bool) (base : List Char) :
    ∀ (fuel counter : Nat) (r : List Char),
    find_unique taken base counter fuel = some r →
      (∃ j, r = nth_candidate base j) ∧ taken r = false := by
  intro fuel
  induction fuel with
  | zero => intro counter r h; simp [find_unique] at h
  | succ fuel ih =>
      intro counter r h
      simp only [find_unique] at h
      cases ht : taken (nth_candidate base counter) with
      | true => rw [ht] at h; simp at h; exact ih _ r h
      | false =>
          rw [ht] at h
          simp at h
          subst h
          exact ⟨⟨counter, rfl⟩, ht⟩

/-- If the oracle is false on the candidate `k` steps ahead of the current
counter, the loop returns within `k + 1` further iterations. -/
theorem find_unique_reaches (taken : List Char → Bool) (base : List Char) :
    ∀ (k counter : Nat),
    taken (nth_candidate base (counter + k)) = false →
      ∃ r, find_unique taken base counter (k + 1) = some r := by
  intro k
  induction k with
  | zero =>
      intro counter h
      rw [Nat.add_zero] at h
      exact ⟨nth_candidate base counter, by simp [find_unique, h]⟩
  | succ k ih =>
      intro counter h
      cases hb : taken (nth_candidate base counter) with
      | false => exact ⟨nth_candidate base counter, by simp [find_unique, hb]⟩
      | true =>
          have h2 : taken (nth_candidate base ((counter + 1) + k)) = false := by
            have harith : (counter + 1) + k = counter + (k + 1) := by omega
            rw [harith]
            exact h
          obtain ⟨r, hr⟩ := ih (counter + 1) h2
          refine ⟨r, ?_⟩
          have hstep : find_unique taken base counter (k + 1 + 1)
              = (if taken (nth_candidate base counter) then
                  find_unique taken base (counter + 1) (k + 1)
                 else some (nth_candidate base counter)) := rfl
          rw [hstep, hb]
          simpa using hr

/-- C5: `unique_short_name` (ASCII lower-casing, space-to-underscore,
stripping to `[a-z0-9\-_.]`, reserved-word `_`-suffixing, then searching
`base, base_0, base_1, ...` for the first free candidate) (a) only returns
strings over the retained class — so the output matches
`^[a-z0-9\-_.]*$` — on which the oracle is false; (b) maps `"API"` with an
always-false oracle to `"api_"`; (c) maps `"Bob"` with
`is_taken = {"bob", "bob_0"}` to `"bob_1"`; (d) terminates with a free name
whenever the oracle is false somewhere in the candidate sequence. -/
theorem unique_short_name_spec :
    (∀ (taken : List Char → Bool) (s : List Char) (fuel : Nat) (r : List Char),
        unique_short_name taken s fuel = some r →
          (∀ c ∈ r, c ∈ ALLOWED_CHARS) ∧ taken r = false)
      ∧ unique_short_name (fun _ => false) "API".toList 1 = some "api_".toList
      ∧ unique_short_name (fun l => l == "bob".toList || l == "bob_0".toList)
          "Bob".toList 3 = some "bob_1".toList
      ∧ (∀ (taken : List Char → Bool) (s : List Char) (i : Nat),
          taken (nth_candidate (normalise_short_name s) i) = false →
            ∃ r, unique_short_name taken s (i + 1) = some r ∧ taken r = false) := by
  refine ⟨?_, by decide, by decide, ?_⟩
  · intro taken s fuel r h
    obtain ⟨⟨j, hj⟩, hfree⟩ :=
      find_unique_some taken (normalise_short_name s) fuel 0 r h
    refine ⟨?_, hfree⟩
    subst hj
    exact nth_candidate_allowed _ (normalise_allowed s) j
  · intro taken s i h
    obtain ⟨r, hr⟩ :=
      find_unique_reaches taken (normalise_short_name s) i 0 (by simpa using h)
    exact ⟨r, hr,
      (find_unique_some taken (normalise_short_name s) (i + 1) 0 r hr).2⟩

/-- Witness for C5: part (a) instantiated on the `"API"` run and part (d)
instantiated at `"Bob"` with an always-free oracle. -/
theorem unique_short_name_spec_witness :
    ((∀ c ∈ "api_".toList, c ∈ ALLOWED_CHARS)
        ∧ (fun _ => false : List Char → Bool) "api_".toList = false)
      ∧ ∃ r, unique_short_name (fun _ => false) "Bob".toList 1 = some r
          ∧ (fun _ => false : List Char → Bool) r = false :=
  ⟨unique_short_name_spec.1 (fun _ => false) "API".toList 1 "api_".toList (by decide),
   unique_short_name_spec.2.2.2 (fun _ => false) "Bob".toList 0 (by decide)⟩

end Linkdoku
